import Mathlib

/-!
# Verification of the stream-tablet server pipeline

Shallow embedding of the server components of the stream-tablet repository
(`src/server/src/...` and the unnamed source parts), together with proofs of
the behavioural properties stated for them.  Side effects (UDP `sendto`,
`uinput` writes, sleeps) are modelled as emitted event lists; machine
integers are modelled as `Nat`/`Int` with explicit `% 2^w` where the C++
code truncates.
-/

namespace StreamTablet

/-! ## Video sender (`src/server/src/network/video_sender.cpp`)

`constexpr size_t MAX_PAYLOAD_SIZE = 1200` and the header constants come
from the video sender header (`src/unnamed/part_013`). -/

def MAX_PAYLOAD_SIZE : Nat := 1200

def VIDEO_MAGIC : Nat := 0x5354

def FLAG_KEYFRAME : Nat := 0x01

def FLAG_START_OF_FRAME : Nat := 0x02

def FLAG_END_OF_FRAME : Nat := 0x04

/-- The 16-byte `VideoPacketHeader` of `src/unnamed/part_013`; every field is
stored by the sender already truncated to its wire width. -/
structure VideoPacketHeader where
  magic : Nat
  sequence : Nat
  frame_number : Nat
  flags : Nat
  fragment_idx : Nat
  fragment_count : Nat
  payload_len : Nat
deriving Repr, DecidableEq

/-- An observable action of `VideoSender::send_frame`: a datagram handed to
`sendto` (only its header matters for the claims; the payload bytes are the
corresponding slice of the frame), or a `std::this_thread::sleep_for` pause
of the given number of microseconds. -/
inductive SendEvent where
  | packet (h : VideoPacketHeader) : SendEvent
  | sleep (us : Nat) : SendEvent
deriving Repr, DecidableEq

/-- `enum class PacingMode` of `src/unnamed/part_013`. -/
inductive PacingMode where
  | AUTO
  | NONE
  | LIGHT
  | AGGRESSIVE
  | KEYFRAME
deriving Repr, DecidableEq

/-- Mutable state of a `VideoSender` (`src/unnamed/part_013`).  `m_sequence`
is a `uint16_t`, kept reduced modulo `2^16`; the socket fd is abstracted
away (a bound socket is assumed, `m_client_set` keeps the guard that
matters). -/
structure VideoSenderState where
  client_set : Bool
  sequence : Nat
  bytes_sent : Nat
  packets_sent : Nat
  pacing_mode : PacingMode
  pacing_threshold : Nat
  packets_per_burst : Nat
  burst_delay_us : Nat
deriving Repr, DecidableEq

/-- `VideoSender::detect_pacing_mode`, applied to the first three octets of
the dotted-quad client address (the code parses them with `sscanf`). -/
def detect_pacing_mode (o1 o2 o3 : Nat) : PacingMode :=
  if o1 = 10 then PacingMode.AGGRESSIVE
  else if o1 = 192 ∧ o2 = 168 ∧ (o3 = 42 ∨ o3 = 43) then PacingMode.AGGRESSIVE
  else PacingMode.LIGHT

/-- `VideoSender::set_client`: records the destination and configures the
pacing parameters from the (possibly auto-detected) mode. -/
def set_client (s : VideoSenderState) (o1 o2 o3 : Nat) (mode : PacingMode) :
    VideoSenderState :=
  let m := if mode = PacingMode.AUTO then detect_pacing_mode o1 o2 o3 else mode
  let p : Nat × Nat × Nat :=
    match m with
    | PacingMode.NONE => (1000000000, 0, 0)
    | PacingMode.LIGHT => (50000, 20, 50)
    | PacingMode.AGGRESSIVE => (2400, 4, 200)
    | PacingMode.KEYFRAME => (0, 8, 100)
    | PacingMode.AUTO => (50000, 20, 50)
  { s with
    client_set := true
    pacing_mode := m
    pacing_threshold := p.1
    packets_per_burst := p.2.1
    burst_delay_us := p.2.2 }

/-- The pacing decision made at the top of `VideoSender::send_frame`
(lines 149-177): whether this frame is paced at all, and the burst
size / inter-burst delay used for it. -/
def pacingSelect (s : VideoSenderState) (size : Nat) (keyframe : Bool) :
    Bool × Nat × Nat :=
  if s.pacing_mode = PacingMode.KEYFRAME then
    if keyframe ∧ size > 100000 then
      if size > 500000 then (true, 2, 300)
      else if size > 300000 then (true, 4, 200)
      else (true, 6, 150)
    else (keyframe, s.packets_per_burst, s.burst_delay_us)
  else if s.pacing_mode ≠ PacingMode.NONE then
    (size > s.pacing_threshold, s.packets_per_burst, s.burst_delay_us)
  else
    (false, s.packets_per_burst, s.burst_delay_us)

/-- The fragment loop of `VideoSender::send_frame` (lines 179-221).  `i` is
the loop index, `offset` the running payload offset, `burst` the
`packets_in_burst` counter; each iteration emits one datagram (header fields
truncated exactly as the casts in the code do), updates the counters as
`send_packet` does, and then applies the pacing rule. -/
def sendFrameLoop (size nfrags frameNo : Nat) (keyframe needPacing : Bool)
    (ppb delayUs : Nat) (i offset burst : Nat) (s : VideoSenderState) :
    VideoSenderState × List SendEvent :=
  if _h : i < nfrags then
    let payloadSize := min MAX_PAYLOAD_SIZE (size - offset)
    let hdr : VideoPacketHeader :=
      { magic := VIDEO_MAGIC
        sequence := s.sequence % 65536
        frame_number := frameNo % 65536
        flags :=
          (if keyframe then FLAG_KEYFRAME else 0) |||
          (if i = 0 then FLAG_START_OF_FRAME else 0) |||
          (if i = nfrags - 1 then FLAG_END_OF_FRAME else 0)
        fragment_idx := i % 65536
        fragment_count := nfrags % 65536
        payload_len := payloadSize % 65536 }
    let s1 : VideoSenderState :=
      { s with
        sequence := (s.sequence + 1) % 65536
        bytes_sent := s.bytes_sent + (16 + payloadSize)
        packets_sent := s.packets_sent + 1 }
    let stepPacing : Nat × List SendEvent :=
      if needPacing then
        if burst + 1 ≥ ppb ∧ i < nfrags - 1 then (0, [SendEvent.sleep delayUs])
        else (burst + 1, [])
      else (burst, [])
    let rest := sendFrameLoop size nfrags frameNo keyframe needPacing ppb delayUs
      (i + 1) (offset + payloadSize) stepPacing.1 s1
    (rest.1, SendEvent.packet hdr :: (stepPacing.2 ++ rest.2))
  else
    (s, [])
termination_by nfrags - i

/-- `VideoSender::send_frame` (lines 131-224): returns the boolean result,
the post-state and the emitted event trace.  The `sendto` calls are modelled
as always succeeding. -/
def send_frame (s : VideoSenderState) (size frameNo : Nat) (keyframe : Bool) :
    Bool × VideoSenderState × List SendEvent :=
  if s.client_set = false then (false, s, [])
  else
    let nfrags := (size + MAX_PAYLOAD_SIZE - 1) / MAX_PAYLOAD_SIZE
    if nfrags > 65535 then (false, s, [])
    else
      let sel := pacingSelect s size keyframe
      let res := sendFrameLoop size nfrags frameNo keyframe sel.1 sel.2.1 sel.2.2 0 0 0 s
      (true, res.1, res.2)

/-- The datagram headers of a trace, in emission order. -/
def packetsOf (evs : List SendEvent) : List VideoPacketHeader :=
  evs.filterMap fun e =>
    match e with
    | SendEvent.packet h => some h
    | SendEvent.sleep _ => none

/-- Closed form of the header of fragment `j` of a frame, for comparison
with the loop: sequence numbers advance by one per datagram from the
sender's current counter, and the payload is the `j`-th 1200-byte slice. -/
def frameHeader (seq0 frameNo size nfrags : Nat) (keyframe : Bool) (j : Nat) :
    VideoPacketHeader :=
  { magic := VIDEO_MAGIC
    sequence := (seq0 + j) % 65536
    frame_number := frameNo % 65536
    flags :=
      (if keyframe then FLAG_KEYFRAME else 0) |||
      (if j = 0 then FLAG_START_OF_FRAME else 0) |||
      (if j = nfrags - 1 then FLAG_END_OF_FRAME else 0)
    fragment_idx := j % 65536
    fragment_count := nfrags % 65536
    payload_len := min 1200 (size - 1200 * j) % 65536 }

/-- All headers of a frame of `size` payload bytes, in fragment order. -/
def frameHeaders (seq0 frameNo size nfrags : Nat) (keyframe : Bool) :
    List VideoPacketHeader :=
  (List.range nfrags).map (frameHeader seq0 frameNo size nfrags keyframe)

/-- Spec-side description of pacing ("bursts of `ppb` packets with a
`delayUs`-microsecond sleep between bursts, no sleep after the final
burst"): `room` is the number of packets the current burst may still take,
initially `ppb`. -/
def burstTrace (ppb delayUs : Nat) :
    List VideoPacketHeader → Nat → List SendEvent
  | [], _ => []
  | [p], _ => [SendEvent.packet p]
  | p :: q :: rest, room =>
    if room ≤ 1 then
      SendEvent.packet p :: SendEvent.sleep delayUs ::
        burstTrace ppb delayUs (q :: rest) ppb
    else
      SendEvent.packet p :: burstTrace ppb delayUs (q :: rest) (room - 1)

/-- The per-frame fragmentation invariants of the spec, about the result of
one `send_frame` call: success, the fragment indices are `0, 1, ...` in
order, and every datagram's header fields and flag bits are as specified. -/
def FragInvariants (s : VideoSenderState) (size frameNo : Nat) (keyframe : Bool) : Prop :=
  (send_frame s size frameNo keyframe).1 = true ∧
  (packetsOf (send_frame s size frameNo keyframe).2.2).map
      (fun p => p.fragment_idx) = List.range ((size + 1199) / 1200) ∧
  ∀ p ∈ packetsOf (send_frame s size frameNo keyframe).2.2,
    p.frame_number = frameNo % 65536 ∧
    p.fragment_count = (size + 1199) / 1200 ∧
    0 < p.payload_len ∧ p.payload_len ≤ 1200 ∧
    (p.flags &&& FLAG_KEYFRAME ≠ 0 ↔ keyframe = true) ∧
    (p.flags &&& FLAG_START_OF_FRAME ≠ 0 ↔ p.fragment_idx = 0) ∧
    (p.flags &&& FLAG_END_OF_FRAME ≠ 0 ↔ p.fragment_idx = (size + 1199) / 1200 - 1)


/-- A concrete sender used to instantiate the theorems: bound socket with a
destination set and the LIGHT pacing configuration of `set_client`. -/
def sampleSender : VideoSenderState :=
  { client_set := true
    sequence := 0
    bytes_sent := 0
    packets_sent := 0
    pacing_mode := PacingMode.LIGHT
    pacing_threshold := 50000
    packets_per_burst := 20
    burst_delay_us := 50 }


/-- The (amended) Keyframe-only pacing behaviour of one `send_frame` call
after `set_client(..., KEYFRAME)`: non-keyframes are emitted back to back
with no sleeps; keyframes of at most 100 KB are paced with the mode's
default burst of 8 packets and 100 µs; the three larger tiers use
6/150 µs, 4/200 µs and 2/300 µs; no sleep ever follows the final burst
(built into `burstTrace`). -/
def KeyframePacingTiers (s0 : VideoSenderState) (o1 o2 o3 size frameNo : Nat)
    (kf : Bool) : Prop :=
  (kf = false →
    (send_frame (set_client s0 o1 o2 o3 PacingMode.KEYFRAME) size frameNo kf).2.2 =
      (frameHeaders s0.sequence frameNo size ((size + 1199) / 1200) kf).map
        SendEvent.packet) ∧
  (kf = true → size ≤ 100000 →
    (send_frame (set_client s0 o1 o2 o3 PacingMode.KEYFRAME) size frameNo kf).2.2 =
      burstTrace 8 100
        (frameHeaders s0.sequence frameNo size ((size + 1199) / 1200) kf) 8) ∧
  (kf = true → 100000 < size → size ≤ 300000 →
    (send_frame (set_client s0 o1 o2 o3 PacingMode.KEYFRAME) size frameNo kf).2.2 =
      burstTrace 6 150
        (frameHeaders s0.sequence frameNo size ((size + 1199) / 1200) kf) 6) ∧
  (kf = true → 300000 < size → size ≤ 500000 →
    (send_frame (set_client s0 o1 o2 o3 PacingMode.KEYFRAME) size frameNo kf).2.2 =
      burstTrace 4 200
        (frameHeaders s0.sequence frameNo size ((size + 1199) / 1200) kf) 4) ∧
  (kf = true → 500000 < size →
    (send_frame (set_client s0 o1 o2 o3 PacingMode.KEYFRAME) size frameNo kf).2.2 =
      burstTrace 2 300
        (frameHeaders s0.sequence frameNo size ((size + 1199) / 1200) kf) 2)


/-! ## Control server (`src/unnamed/part_014`) -/

def MSG_CONFIG_RESPONSE : Nat := 0x04

/-- The payload assembled by `ControlServer::send_config_full`
(part_014, lines 223-253): a 15-byte `std::vector<uint8_t>`; every store
truncates to a byte exactly as the casts in the code do (`codec_type` is a
`uint8_t` parameter, modelled by reducing the argument mod 256). -/
def send_config_full_payload (w h vp ip ap asr ach afm codec : Nat) :
    List Nat :=
  [(w >>> 8) &&& 255, w &&& 255,
   (h >>> 8) &&& 255, h &&& 255,
   (vp >>> 8) &&& 255, vp &&& 255,
   (ip >>> 8) &&& 255, ip &&& 255,
   (ap >>> 8) &&& 255, ap &&& 255,
   (asr >>> 8) &&& 255, asr &&& 255,
   ach % 256, afm % 256, codec % 256]

/-- `ControlServer::send_message` framing (part_014, lines 290-308):
`[length(2, big-endian) | type(1) | payload]` with
`length = payload length + 1` truncated to `uint16_t`. -/
def send_message (msgType : Nat) (payload : List Nat) : List Nat :=
  ((((payload.length + 1) % 65536) >>> 8) &&& 255) ::
    (((payload.length + 1) % 65536) &&& 255) :: (msgType % 256) :: payload

/-- The ConfigResponse payload sent by `Server::run` during the handshake
(part_006, lines 191-202): it calls `send_config_full` with the audio port
replaced by 0 when audio is not initialized. -/
def server_config_response (screenW screenH videoPort inputPort audioPort
    sampleRate channels frameMs codec : Nat) (audioInitialized : Bool) :
    List Nat :=
  send_config_full_payload screenW screenH videoPort inputPort
    (if audioInitialized then audioPort else 0) sampleRate channels frameMs
    codec

/-- Spec-side refinement definition, following the spec's words: the 15-byte
form `[screen_w(2) | screen_h(2) | video port(2) | input port(2) |
audio port(2) | audio sample rate(2) | audio channels(1) |
audio frame ms(1) | codec id(1)]` with multi-byte fields big-endian. -/
def specConfigResponse (screenW screenH videoPort inputPort audioPort
    sampleRate channels frameMs codec : Nat) : List Nat :=
  [screenW / 256, screenW % 256,
   screenH / 256, screenH % 256,
   videoPort / 256, videoPort % 256,
   inputPort / 256, inputPort % 256,
   audioPort / 256, audioPort % 256,
   sampleRate / 256, sampleRate % 256,
   channels, frameMs, codec]

/-! ## VAAPI encoder keyframe handling
(`src/server/src/encoder/vaapi_encoder.cpp`, lines 293-352) -/

/-- The keyframe-relevant state of a `VAAPIEncoder`: the one-shot
`m_force_keyframe` flag and the frames currently buffered inside the FFmpeg
codec, oldest first; an entry is `true` when that frame was submitted with
`AV_PICTURE_TYPE_I` / `AV_FRAME_FLAG_KEY` (a forced keyframe). -/
structure EncoderState where
  force_keyframe : Bool
  queue : List Bool
deriving Repr, DecidableEq

/-- `VAAPIEncoder::request_keyframe()` (vaapi_encoder.hpp): sets the
one-shot flag. -/
def request_keyframe (s : EncoderState) : EncoderState :=
  { s with force_keyframe := true }

/-- One call to `VAAPIEncoder::encode`.  Conversion and GPU upload are not
modelled and `avcodec_send_frame` is assumed to succeed; the codec is a
FIFO: `ready` says whether `avcodec_receive_packet` has output this call
(`false` models EAGAIN → the NotReady return), and `gopKf` whether the
codec made the emitted packet a keyframe on its own (GOP boundary).  The
submitted frame is marked iff `m_force_keyframe` is set, and the flag is
cleared at that moment — before the receive — exactly as lines 316-325 do.
Returns the new state and `some is_keyframe` when a packet is produced,
`none` for the NotReady return. -/
def encode (s : EncoderState) (ready gopKf : Bool) : EncoderState × Option Bool :=
  let marked := s.force_keyframe
  let q := s.queue ++ [marked]
  if ready then
    match q with
    | f :: restq => ({ force_keyframe := false, queue := restq }, some (f || gopKf))
    | [] => ({ force_keyframe := false, queue := [] }, none)
  else
    ({ force_keyframe := false, queue := q }, none)

/-- The keyframe flags of the packets returned by a sequence of `encode`
calls, each call described by its `(ready, gopKf)` pair. -/
def encodeRun (s : EncoderState) : List (Bool × Bool) → List Bool
  | [] => []
  | (ready, gop) :: calls =>
    match (encode s ready gop).2 with
    | some kf => kf :: encodeRun (encode s ready gop).1 calls
    | none => encodeRun (encode s ready gop).1 calls

/-- The number of non-keyframes returned before the first keyframe. -/
def nonKeyframesBeforeKeyframe (emitted : List Bool) : Nat :=
  (emitted.takeWhile (fun b => !b)).length

/-! ## BGRA→NV12 conversion
(`convert_bgra_to_nv12_fast`, vaapi_encoder.cpp lines 209-291) -/

/-- One BGRA pixel: byte values as loaded from the captured frame
(`src[x*4+0]` = blue, `+1` = green, `+2` = red, `+3` = alpha). -/
structure Pixel where
  b : Nat
  g : Nat
  r : Nat
  a : Nat
deriving Repr, DecidableEq

/-- The Y (luma) byte computed for one pixel by the Y loop body, stored
into a `uint8_t` (mod 256). -/
def yByte (r g b : Nat) : Nat :=
  (((66 * r + 129 * g + 25 * b + 128) >>> 8) + 16) % 256

/-- The C++ arithmetic right shift `>> 8` of a (possibly negative) `int`:
floor division by 256. -/
def sar8 (x : Int) : Int := Int.fdiv x 256

/-- The U value of the UV loop body, before clamping. -/
def uValue (r g b : Nat) : Int :=
  sar8 (-38 * (r : Int) - 74 * (g : Int) + 112 * (b : Int) + 128) + 128

/-- The V value of the UV loop body, before clamping. -/
def vValue (r g b : Nat) : Int :=
  sar8 (112 * (r : Int) - 94 * (g : Int) - 18 * (b : Int) + 128) + 128

/-- The clamp `(u < 0) ? 0 : (u > 255) ? 255 : u` of the SSE2 path; the
scalar path's `std::clamp(u, 0, 255)` is the same function. -/
def clampByte (x : Int) : Int :=
  if x < 0 then 0 else if x > 255 then 255 else x

/-- The 2×2 averaging of the UV loop: componentwise sum of the four source
samples shifted right by 2 (`r >>= 2` after the four adds). -/
def avg4 (x0 x1 x2 x3 : Nat) : Nat := (x0 + x1 + x2 + x3) >>> 2

/-- The interleaved UV byte pair written for one 2×2 block: pixels
`p00, p10` from the even source row (`src0[x*8+..]`, `src0[x*8+4+..]`) and
`p01, p11` from the odd row (`src1[..]`). -/
def uvBytes (p00 p10 p01 p11 : Pixel) : Int × Int :=
  (clampByte (uValue (avg4 p00.r p10.r p01.r p11.r)
      (avg4 p00.g p10.g p01.g p11.g) (avg4 p00.b p10.b p01.b p11.b)),
   clampByte (vValue (avg4 p00.r p10.r p01.r p11.r)
      (avg4 p00.g p10.g p01.g p11.g) (avg4 p00.b p10.b p01.b p11.b)))

/-- The Y plane produced for a frame given as a pixel matrix: the Y loop
writes `yByte` of pixel `(x, y)` at position `(x, y)`. -/
def yPlane (pix : Nat → Nat → Pixel) (x y : Nat) : Nat :=
  yByte (pix x y).r (pix x y).g (pix x y).b

/-- The UV plane: the UV loop writes, at chroma coordinate `(x, y)`, the
U/V pair of the 2×2 source block with corners `(2x, 2y)..(2x+1, 2y+1)`. -/
def uvPlane (pix : Nat → Nat → Pixel) (x y : Nat) : Int × Int :=
  uvBytes (pix (2 * x) (2 * y)) (pix (2 * x + 1) (2 * y))
    (pix (2 * x) (2 * y + 1)) (pix (2 * x + 1) (2 * y + 1))

/-! ## uinput backend (`src/server/src/input/uinput_backend.cpp`)

Linux `input-event-codes.h` values used by the backend. -/

def EV_SYN : Nat := 0x00

def EV_KEY : Nat := 0x01

def EV_ABS : Nat := 0x03

def SYN_REPORT : Nat := 0

def BTN_TOOL_PEN : Nat := 0x140

def BTN_TOOL_RUBBER : Nat := 0x141

def BTN_TOUCH : Nat := 0x14a

def BTN_TOOL_FINGER : Nat := 0x145

def BTN_TOOL_QUINTTAP : Nat := 0x148

def BTN_TOOL_DOUBLETAP : Nat := 0x14d

def BTN_TOOL_TRIPLETAP : Nat := 0x14e

def BTN_TOOL_QUADTAP : Nat := 0x14f

def ABS_X : Nat := 0x00

def ABS_Y : Nat := 0x01

def ABS_PRESSURE : Nat := 0x18

def ABS_TILT_X : Nat := 0x1a

def ABS_TILT_Y : Nat := 0x1b

def ABS_MT_SLOT : Nat := 0x2f

def ABS_MT_POSITION_X : Nat := 0x35

def ABS_MT_POSITION_Y : Nat := 0x36

def ABS_MT_TRACKING_ID : Nat := 0x39

def ABS_MT_PRESSURE : Nat := 0x3a

/-- One `input_event` written by `UInputBackend::emit(fd, type, code,
value)`. -/
structure UEvent where
  etype : Nat
  code : Nat
  value : Int
deriving Repr, DecidableEq

/-- Stylus-relevant mutable state of the backend: `m_stylus_tool_active`
and `m_stylus_touching`. -/
structure StylusState where
  tool_active : Bool
  touching : Bool
deriving Repr, DecidableEq

/-- `UInputBackend::send_stylus` (lines 291-350).  The float→int scaling
(`transform_coord`, `pressure * 65535`, tilt casts) is abstracted: the
parameters are the already-scaled integer values.  Returns the new state
and the `input_event`s written to the stylus device, in emission order. -/
def send_stylus (s : StylusState) (absX absY absPressure tiltX tiltY : Int)
    (tip_down eraser in_range : Bool) : StylusState × List UEvent :=
  if in_range then
    let toolStep : List UEvent × Bool :=
      if ¬ s.tool_active ∧ ¬ eraser then
        ([⟨EV_KEY, BTN_TOOL_PEN, 1⟩, ⟨EV_KEY, BTN_TOOL_RUBBER, 0⟩], true)
      else ([], s.tool_active)
    let rubberStep : List UEvent × Bool :=
      if eraser ∧ toolStep.2 then
        ([⟨EV_KEY, BTN_TOOL_PEN, 0⟩, ⟨EV_KEY, BTN_TOOL_RUBBER, 1⟩], false)
      else ([], toolStep.2)
    let touchStep : List UEvent × Bool :=
      if tip_down ∧ ¬ s.touching then ([⟨EV_KEY, BTN_TOUCH, 1⟩], true)
      else if ¬ tip_down ∧ s.touching then ([⟨EV_KEY, BTN_TOUCH, 0⟩], false)
      else ([], s.touching)
    let posEvs : List UEvent :=
      [⟨EV_ABS, ABS_X, absX⟩, ⟨EV_ABS, ABS_Y, absY⟩,
       ⟨EV_ABS, ABS_PRESSURE, if touchStep.2 then absPressure else 0⟩,
       ⟨EV_ABS, ABS_TILT_X, tiltX⟩, ⟨EV_ABS, ABS_TILT_Y, tiltY⟩]
    (⟨rubberStep.2, touchStep.2⟩,
      toolStep.1 ++ rubberStep.1 ++ touchStep.1 ++ posEvs ++
        [⟨EV_SYN, SYN_REPORT, 0⟩])
  else
    let touchEvs : List UEvent :=
      if s.touching then [⟨EV_KEY, BTN_TOUCH, 0⟩] else []
    let penEvs : List UEvent :=
      if s.tool_active then [⟨EV_KEY, BTN_TOOL_PEN, 0⟩] else []
    (⟨false, false⟩,
      touchEvs ++ penEvs ++
        [⟨EV_KEY, BTN_TOOL_RUBBER, 0⟩, ⟨EV_ABS, ABS_PRESSURE, 0⟩,
         ⟨EV_SYN, SYN_REPORT, 0⟩])

/-- One multi-touch slot (`struct TouchSlot` of uinput_backend.hpp). -/
structure TouchSlot where
  active : Bool
  tracking_id : Int
deriving Repr, DecidableEq

/-- The slot array `m_touch_slots[5]`. -/
abbrev TouchSlots := Fin 5 → TouchSlot

/-- The active-slot count computed by the `for (int i = 0; i < 5; i++)`
loops of `send_touch`. -/
def activeCount (slots : TouchSlots) : Nat :=
  (List.finRange 5).countP fun i => (slots i).active

/-- The `switch (active_count - 1)` of the touch-down path: clear the
TOOL_* key of the previous count (`default` clears QUINTTAP). -/
def downToolClear (n : Nat) : List UEvent :=
  if n = 1 then [⟨EV_KEY, BTN_TOOL_FINGER, 0⟩]
  else if n = 2 then [⟨EV_KEY, BTN_TOOL_DOUBLETAP, 0⟩]
  else if n = 3 then [⟨EV_KEY, BTN_TOOL_TRIPLETAP, 0⟩]
  else if n = 4 then [⟨EV_KEY, BTN_TOOL_QUADTAP, 0⟩]
  else [⟨EV_KEY, BTN_TOOL_QUINTTAP, 0⟩]

/-- The `switch (active_count)` of the touch-down path: set the TOOL_* key
of the new count (`default` sets QUINTTAP). -/
def downToolSet (n : Nat) : List UEvent :=
  if n = 1 then [⟨EV_KEY, BTN_TOOL_FINGER, 1⟩]
  else if n = 2 then [⟨EV_KEY, BTN_TOOL_DOUBLETAP, 1⟩]
  else if n = 3 then [⟨EV_KEY, BTN_TOOL_TRIPLETAP, 1⟩]
  else if n = 4 then [⟨EV_KEY, BTN_TOOL_QUADTAP, 1⟩]
  else [⟨EV_KEY, BTN_TOOL_QUINTTAP, 1⟩]

/-- The `switch (active_count)` of the touch-up path (lines 415-420):
clear the TOOL_* key of the pre-release count for counts 2..5; no
`default` case. -/
def upToolClear (n : Nat) : List UEvent :=
  if n = 2 then [⟨EV_KEY, BTN_TOOL_DOUBLETAP, 0⟩]
  else if n = 3 then [⟨EV_KEY, BTN_TOOL_TRIPLETAP, 0⟩]
  else if n = 4 then [⟨EV_KEY, BTN_TOOL_QUADTAP, 0⟩]
  else if n = 5 then [⟨EV_KEY, BTN_TOOL_QUINTTAP, 0⟩]
  else []

/-- `UInputBackend::send_touch` (lines 352-427), with the float→int
scaling abstracted as in `send_stylus`.  Returns the new slot array and
the `input_event`s written to the touch device. -/
def send_touch (slots : TouchSlots) (absX absY absPressure : Int)
    (slot : Nat) (down : Bool) : TouchSlots × List UEvent :=
  if h : slot < 5 then
    let si : Fin 5 := ⟨slot, h⟩
    let selEv : UEvent := ⟨EV_ABS, ABS_MT_SLOT, (slot : Int)⟩
    let posEvs : List UEvent :=
      [⟨EV_ABS, ABS_MT_PRESSURE, absPressure⟩,
       ⟨EV_ABS, ABS_MT_POSITION_X, absX⟩, ⟨EV_ABS, ABS_MT_POSITION_Y, absY⟩,
       ⟨EV_ABS, ABS_X, absX⟩, ⟨EV_ABS, ABS_Y, absY⟩]
    if down then
      if (slots si).active then
        (slots, selEv :: posEvs ++ [⟨EV_SYN, SYN_REPORT, 0⟩])
      else
        let slots1 := Function.update slots si ⟨true, (slot : Int)⟩
        let cnt := activeCount slots1
        (slots1,
          selEv :: ⟨EV_ABS, ABS_MT_TRACKING_ID, (slot : Int)⟩ ::
            ⟨EV_KEY, BTN_TOUCH, 1⟩ ::
            (downToolClear (cnt - 1) ++ downToolSet cnt ++ posEvs ++
              [⟨EV_SYN, SYN_REPORT, 0⟩]))
    else
      let cnt := activeCount slots
      let slots1 := Function.update slots si ⟨false, -1⟩
      (slots1,
        selEv :: ⟨EV_ABS, ABS_MT_TRACKING_ID, -1⟩ :: ⟨EV_KEY, BTN_TOUCH, 0⟩ ::
          ⟨EV_KEY, BTN_TOOL_FINGER, 0⟩ ::
          (upToolClear cnt ++ [⟨EV_SYN, SYN_REPORT, 0⟩]))
  else (slots, [])

/-! ## Server input dispatch (`Server::handle_input`, part_006 lines
412-469) -/

/-- `enum class InputEventType` (input receiver header). -/
inductive InputEventType where
  | TOUCH_DOWN
  | TOUCH_MOVE
  | TOUCH_UP
  | STYLUS_DOWN
  | STYLUS_MOVE
  | STYLUS_UP
  | STYLUS_HOVER
  | KEY_DOWN
  | KEY_UP
deriving Repr, DecidableEq

/-- A decoded `InputEvent` as `Server::handle_input` consumes it, with the
normalized float coordinates already mapped by `CoordTransform` and the
0..65535 scaling (abstracted to the resulting integers). -/
structure ModelInputEvent where
  etype : InputEventType
  pointer_id : Nat
  absX : Int
  absY : Int
  absPressure : Int
  tiltX : Int
  tiltY : Int
  buttons : Nat
deriving Repr, DecidableEq

/-- The uinput-relevant state reached through `Server::handle_input`
(the backend is assumed initialized; otherwise every event is dropped). -/
structure InputState where
  stylus : StylusState
  touch : TouchSlots

/-- `Server::handle_input`: dispatch one event to the synthetic devices.
Stylus Down/Move/Hover pass `tip_down = (type ≠ HOVER)`, the eraser bit
`buttons & 0x20`, and `in_range = true`; `STYLUS_UP` passes pressure 0 and
`in_range = false`; touch events go to `send_touch`; `KEY_DOWN`/`KEY_UP`
fall into `default: break;` — nothing is emitted. -/
def handle_input (s : InputState) (e : ModelInputEvent) :
    InputState × List UEvent :=
  match e.etype with
  | InputEventType.STYLUS_DOWN =>
    let r := send_stylus s.stylus e.absX e.absY e.absPressure e.tiltX e.tiltY
      true (e.buttons &&& 0x20 != 0) true
    ({ s with stylus := r.1 }, r.2)
  | InputEventType.STYLUS_MOVE =>
    let r := send_stylus s.stylus e.absX e.absY e.absPressure e.tiltX e.tiltY
      true (e.buttons &&& 0x20 != 0) true
    ({ s with stylus := r.1 }, r.2)
  | InputEventType.STYLUS_HOVER =>
    let r := send_stylus s.stylus e.absX e.absY e.absPressure e.tiltX e.tiltY
      false (e.buttons &&& 0x20 != 0) true
    ({ s with stylus := r.1 }, r.2)
  | InputEventType.STYLUS_UP =>
    let r := send_stylus s.stylus e.absX e.absY 0 e.tiltX e.tiltY
      false false false
    ({ s with stylus := r.1 }, r.2)
  | InputEventType.TOUCH_DOWN =>
    let r := send_touch s.touch e.absX e.absY e.absPressure e.pointer_id true
    ({ s with touch := r.1 }, r.2)
  | InputEventType.TOUCH_MOVE =>
    let r := send_touch s.touch e.absX e.absY e.absPressure e.pointer_id true
    ({ s with touch := r.1 }, r.2)
  | InputEventType.TOUCH_UP =>
    let r := send_touch s.touch e.absX e.absY 0 e.pointer_id false
    ({ s with touch := r.1 }, r.2)
  | InputEventType.KEY_DOWN => (s, [])
  | InputEventType.KEY_UP => (s, [])

/-- Folding `handle_input` over a sequence of received events. -/
def handleRun (s : InputState) : List ModelInputEvent → InputState
  | [] => s
  | e :: es => handleRun (handle_input s e).1 es

/-- The state of the synthetic devices right after creation: no tool, no
contact, all five slots inactive with tracking id −1. -/
def inputInit : InputState :=
  ⟨⟨false, false⟩, fun _ => ⟨false, -1⟩⟩

/-- The per-pixel / per-block conversion facts of the spec: the Y byte is
the unclamped integer BT.601 formula (no truncation occurs), the written U
and V equal the unclamped formulas applied to the componentwise 2×2
average, and all produced bytes lie in [0, 255]. -/
def NV12PixelSpec (pix : Nat → Nat → Pixel) (x y : Nat) : Prop :=
  yPlane pix x y =
    ((66 * (pix x y).r + 129 * (pix x y).g + 25 * (pix x y).b + 128) >>> 8)
      + 16 ∧
  yPlane pix x y ≤ 255 ∧
  (uvPlane pix x y).1 =
    uValue
      (avg4 (pix (2 * x) (2 * y)).r (pix (2 * x + 1) (2 * y)).r
        (pix (2 * x) (2 * y + 1)).r (pix (2 * x + 1) (2 * y + 1)).r)
      (avg4 (pix (2 * x) (2 * y)).g (pix (2 * x + 1) (2 * y)).g
        (pix (2 * x) (2 * y + 1)).g (pix (2 * x + 1) (2 * y + 1)).g)
      (avg4 (pix (2 * x) (2 * y)).b (pix (2 * x + 1) (2 * y)).b
        (pix (2 * x) (2 * y + 1)).b (pix (2 * x + 1) (2 * y + 1)).b) ∧
  (uvPlane pix x y).2 =
    vValue
      (avg4 (pix (2 * x) (2 * y)).r (pix (2 * x + 1) (2 * y)).r
        (pix (2 * x) (2 * y + 1)).r (pix (2 * x + 1) (2 * y + 1)).r)
      (avg4 (pix (2 * x) (2 * y)).g (pix (2 * x + 1) (2 * y)).g
        (pix (2 * x) (2 * y + 1)).g (pix (2 * x + 1) (2 * y + 1)).g)
      (avg4 (pix (2 * x) (2 * y)).b (pix (2 * x + 1) (2 * y)).b
        (pix (2 * x) (2 * y + 1)).b (pix (2 * x + 1) (2 * y + 1)).b) ∧
  0 ≤ (uvPlane pix x y).1 ∧ (uvPlane pix x y).1 ≤ 255 ∧
  0 ≤ (uvPlane pix x y).2 ∧ (uvPlane pix x y).2 ≤ 255

/-- A concrete constant test frame. -/
def constPix : Nat → Nat → Pixel := fun _ _ => ⟨30, 20, 10, 255⟩

/-- What one TouchUp on slot `si` emits and does to the state (amended):
the slot is selected first, tracking id −1 is written, `BTN_TOUCH` and
`BTN_TOOL_FINGER` are cleared unconditionally — even when other slots
remain active — the TOOL_* key of the pre-release active count is cleared,
and the slot is deactivated. -/
def TouchUpBehaviour (slots : TouchSlots) (x y : Int) (si : Fin 5) : Prop :=
  (send_touch slots x y 0 si.val false).2.head? =
    some ⟨EV_ABS, ABS_MT_SLOT, (si.val : Int)⟩ ∧
  (⟨EV_ABS, ABS_MT_TRACKING_ID, -1⟩ : UEvent) ∈
    (send_touch slots x y 0 si.val false).2 ∧
  (⟨EV_KEY, BTN_TOUCH, 0⟩ : UEvent) ∈ (send_touch slots x y 0 si.val false).2 ∧
  (⟨EV_KEY, BTN_TOOL_FINGER, 0⟩ : UEvent) ∈
    (send_touch slots x y 0 si.val false).2 ∧
  upToolClear (activeCount slots) ⊆ (send_touch slots x y 0 si.val false).2 ∧
  (send_touch slots x y 0 si.val false).1 =
    Function.update slots si ⟨false, -1⟩

/-- A slot array with exactly slots 0 and 1 active. -/
def twoActiveSlots : TouchSlots :=
  fun i => if i.val ≤ 1 then ⟨true, (i.val : Int)⟩ else ⟨false, -1⟩

/-- Stylus state safety (amended): over any sequence of received input
events that never sets the eraser bit, tip contact implies the tool is
active; and a StylusUp always forces both stylus flags off and emits
pressure 0. -/
def StylusSafety (evs : List ModelInputEvent) : Prop :=
  ((handleRun inputInit evs).stylus.touching = true →
    (handleRun inputInit evs).stylus.tool_active = true) ∧
  ∀ (s : InputState) (e : ModelInputEvent),
    e.etype = InputEventType.STYLUS_UP →
    (handle_input s e).1.stylus = ⟨false, false⟩ ∧
    (⟨EV_ABS, ABS_PRESSURE, 0⟩ : UEvent) ∈ (handle_input s e).2

lemma sendFrameLoop_stop (size nfrags frameNo : Nat) (kf np : Bool)
    (ppb d i offset b : Nat) (s : VideoSenderState) (h : ¬ i < nfrags) :
    sendFrameLoop size nfrags frameNo kf np ppb d i offset b s = (s, []) := by
  unfold sendFrameLoop
  rw [dif_neg h]

lemma sendFrameLoop_trace_unpaced (size nfrags frameNo : Nat) (kf : Bool)
    (ppb d : Nat) (hn : nfrags = (size + 1199) / 1200) :
    ∀ (m seq0 i offset b : Nat) (s : VideoSenderState),
      i + m = nfrags → (i < nfrags → offset = 1200 * i) →
      s.sequence % 65536 = (seq0 + i) % 65536 →
      (sendFrameLoop size nfrags frameNo kf false ppb d i offset b s).2 =
        ((List.range' i m).map (frameHeader seq0 frameNo size nfrags kf)).map
          SendEvent.packet := by
  intro m
  induction m with
  | zero =>
    intro seq0 i offset b s him ho hs
    rw [sendFrameLoop_stop]
    · simp
    · omega
  | succ m ih =>
    intro seq0 i offset b s him ho hs
    have hi : i < nfrags := by omega
    have ho' := ho hi
    have hhdr : (⟨VIDEO_MAGIC, s.sequence % 65536, frameNo % 65536,
        (if kf then FLAG_KEYFRAME else 0) |||
          (if i = 0 then FLAG_START_OF_FRAME else 0) |||
          (if i = nfrags - 1 then FLAG_END_OF_FRAME else 0), i % 65536,
        nfrags % 65536, min MAX_PAYLOAD_SIZE (size - offset) % 65536⟩ :
          VideoPacketHeader) = frameHeader seq0 frameNo size nfrags kf i := by
      simp only [frameHeader, MAX_PAYLOAD_SIZE, ho', hs]
    unfold sendFrameLoop
    rw [dif_pos hi]
    simp only [Bool.false_eq_true, if_false, List.nil_append, List.range'_succ,
      List.map_cons, hhdr]
    congr 1
    apply ih seq0 (i + 1)
    · omega
    · intro hlt
      have hmin : min MAX_PAYLOAD_SIZE (size - offset) = 1200 := by
        simp only [MAX_PAYLOAD_SIZE]
        omega
      omega
    · show (s.sequence + 1) % 65536 % 65536 = (seq0 + (i + 1)) % 65536
      omega

lemma sendFrameLoop_trace_paced (size nfrags frameNo : Nat) (kf : Bool)
    (ppb d : Nat) (hn : nfrags = (size + 1199) / 1200) :
    ∀ (m seq0 i offset b : Nat) (s : VideoSenderState),
      i + m = nfrags → (i < nfrags → offset = 1200 * i) →
      s.sequence % 65536 = (seq0 + i) % 65536 →
      (sendFrameLoop size nfrags frameNo kf true ppb d i offset b s).2 =
        burstTrace ppb d
          ((List.range' i m).map (frameHeader seq0 frameNo size nfrags kf))
          (ppb - b) := by
  intro m
  induction m with
  | zero =>
    intro seq0 i offset b s him ho hs
    rw [sendFrameLoop_stop]
    · simp [burstTrace]
    · omega
  | succ m ih =>
    intro seq0 i offset b s him ho hs
    have hi : i < nfrags := by omega
    have ho' := ho hi
    have hhdr : (⟨VIDEO_MAGIC, s.sequence % 65536, frameNo % 65536,
        (if kf then FLAG_KEYFRAME else 0) |||
          (if i = 0 then FLAG_START_OF_FRAME else 0) |||
          (if i = nfrags - 1 then FLAG_END_OF_FRAME else 0), i % 65536,
        nfrags % 65536, min MAX_PAYLOAD_SIZE (size - offset) % 65536⟩ :
          VideoPacketHeader) = frameHeader seq0 frameNo size nfrags kf i := by
      simp only [frameHeader, MAX_PAYLOAD_SIZE, ho', hs]
    unfold sendFrameLoop
    rw [dif_pos hi]
    simp only [reduceIte]
    cases m with
    | zero =>
      have hcond : ¬ (b + 1 ≥ ppb ∧ i < nfrags - 1) := by omega
      rw [if_neg hcond,
        sendFrameLoop_stop size nfrags frameNo kf true ppb d (i + 1) _ _ _
          (by omega)]
      simp [List.range'_succ, burstTrace, hhdr]
    | succ m' =>
      have hoff : i + 1 < nfrags →
          offset + min MAX_PAYLOAD_SIZE (size - offset) = 1200 * (i + 1) := by
        intro hlt
        have hmin : min MAX_PAYLOAD_SIZE (size - offset) = 1200 := by
          simp only [MAX_PAYLOAD_SIZE]
          omega
        omega
      have hseq : (s.sequence + 1) % 65536 % 65536 = (seq0 + (i + 1)) % 65536 := by
        omega
      rw [List.range'_succ, List.map_cons, List.range'_succ, List.map_cons]
      by_cases hb : ppb ≤ b + 1
      · rw [if_pos (show b + 1 ≥ ppb ∧ i < nfrags - 1 from ⟨hb, by omega⟩)]
        rw [burstTrace, if_pos (show ppb - b ≤ 1 by omega)]
        simp only [List.cons_append, List.nil_append, hhdr]
        have htail := ih seq0 (i + 1)
          (offset + min MAX_PAYLOAD_SIZE (size - offset)) 0
          { s with
            sequence := (s.sequence + 1) % 65536
            bytes_sent := s.bytes_sent + (16 + min MAX_PAYLOAD_SIZE (size - offset))
            packets_sent := s.packets_sent + 1 } (by omega) hoff hseq
        rw [List.range'_succ, List.map_cons, Nat.sub_zero] at htail
        rw [htail]
      · rw [if_neg (show ¬ (b + 1 ≥ ppb ∧ i < nfrags - 1) by omega)]
        rw [burstTrace, if_neg (show ¬ ppb - b ≤ 1 by omega)]
        simp only [List.nil_append, hhdr]
        have htail := ih seq0 (i + 1)
          (offset + min MAX_PAYLOAD_SIZE (size - offset)) (b + 1)
          { s with
            sequence := (s.sequence + 1) % 65536
            bytes_sent := s.bytes_sent + (16 + min MAX_PAYLOAD_SIZE (size - offset))
            packets_sent := s.packets_sent + 1 } (by omega) hoff hseq
        rw [List.range'_succ, List.map_cons] at htail
        rw [htail]
        congr 1

lemma packetsOf_cons_packet (h : VideoPacketHeader) (t : List SendEvent) :
    packetsOf (SendEvent.packet h :: t) = h :: packetsOf t := rfl

lemma packetsOf_cons_sleep (us : Nat) (t : List SendEvent) :
    packetsOf (SendEvent.sleep us :: t) = packetsOf t := rfl

lemma packetsOf_map_packet (l : List VideoPacketHeader) :
    packetsOf (l.map SendEvent.packet) = l := by
  induction l with
  | nil => rfl
  | cons p t ih => rw [List.map_cons, packetsOf_cons_packet, ih]

lemma packetsOf_burstTrace (ppb d : Nat) :
    ∀ (l : List VideoPacketHeader) (room : Nat),
      packetsOf (burstTrace ppb d l room) = l
  | [], _ => rfl
  | [p], _ => rfl
  | p :: q :: rest, room => by
    rw [burstTrace]
    by_cases hr : room ≤ 1
    · rw [if_pos hr, packetsOf_cons_packet, packetsOf_cons_sleep,
        packetsOf_burstTrace ppb d (q :: rest) ppb]
    · rw [if_neg hr, packetsOf_cons_packet,
        packetsOf_burstTrace ppb d (q :: rest) (room - 1)]

lemma send_frame_packets (s : VideoSenderState) (size frameNo : Nat)
    (keyframe : Bool) (hcs : s.client_set = true)
    (hfit : (size + 1199) / 1200 ≤ 65535) :
    (send_frame s size frameNo keyframe).1 = true ∧
    packetsOf (send_frame s size frameNo keyframe).2.2 =
      frameHeaders s.sequence frameNo size ((size + 1199) / 1200) keyframe := by
  have hn : size + 1200 - 1 = size + 1199 := by omega
  unfold send_frame
  rw [hcs]
  rw [if_neg (show ¬ (true = false) by simp)]
  simp only [MAX_PAYLOAD_SIZE]
  rw [hn]
  rw [if_neg (show ¬ (size + 1199) / 1200 > 65535 by omega)]
  refine ⟨rfl, ?_⟩
  by_cases hsel : (pacingSelect s size keyframe).1 = true
  · rw [hsel]
    rw [sendFrameLoop_trace_paced size ((size + 1199) / 1200) frameNo keyframe
      (pacingSelect s size keyframe).2.1 (pacingSelect s size keyframe).2.2
      (by omega) ((size + 1199) / 1200) s.sequence 0 0 0 s (by omega) (by omega)
      (by omega)]
    rw [packetsOf_burstTrace]
    rw [frameHeaders, List.range_eq_range']
  · rw [Bool.not_eq_true] at hsel
    rw [hsel]
    rw [sendFrameLoop_trace_unpaced size ((size + 1199) / 1200) frameNo keyframe
      (pacingSelect s size keyframe).2.1 (pacingSelect s size keyframe).2.2
      (by omega) ((size + 1199) / 1200) s.sequence 0 0 0 s (by omega) (by omega)
      (by omega)]
    rw [packetsOf_map_packet]
    rw [frameHeaders, List.range_eq_range']

lemma flags_bits (kf : Bool) (p q : Prop) [Decidable p] [Decidable q] :
    (((if kf then FLAG_KEYFRAME else 0) ||| (if p then FLAG_START_OF_FRAME else 0) |||
        (if q then FLAG_END_OF_FRAME else 0)) &&& FLAG_KEYFRAME ≠ 0 ↔ kf = true) ∧
    (((if kf then FLAG_KEYFRAME else 0) ||| (if p then FLAG_START_OF_FRAME else 0) |||
        (if q then FLAG_END_OF_FRAME else 0)) &&& FLAG_START_OF_FRAME ≠ 0 ↔ p) ∧
    (((if kf then FLAG_KEYFRAME else 0) ||| (if p then FLAG_START_OF_FRAME else 0) |||
        (if q then FLAG_END_OF_FRAME else 0)) &&& FLAG_END_OF_FRAME ≠ 0 ↔ q) := by
  cases kf <;> by_cases hp : p <;> by_cases hq : q <;>
    simp [hp, hq, FLAG_KEYFRAME, FLAG_START_OF_FRAME, FLAG_END_OF_FRAME] <;>
    decide

lemma frameHeader_props (seq0 frameNo size nfrags : Nat) (keyframe : Bool)
    (j : Nat) (hj : j < nfrags) (hfit : nfrags ≤ 65535)
    (hn : nfrags = (size + 1199) / 1200) :
    (frameHeader seq0 frameNo size nfrags keyframe j).frame_number = frameNo % 65536 ∧
    (frameHeader seq0 frameNo size nfrags keyframe j).fragment_idx = j ∧
    (frameHeader seq0 frameNo size nfrags keyframe j).fragment_count = nfrags ∧
    0 < (frameHeader seq0 frameNo size nfrags keyframe j).payload_len ∧
    (frameHeader seq0 frameNo size nfrags keyframe j).payload_len ≤ 1200 ∧
    ((frameHeader seq0 frameNo size nfrags keyframe j).flags &&& FLAG_KEYFRAME ≠ 0 ↔
      keyframe = true) ∧
    ((frameHeader seq0 frameNo size nfrags keyframe j).flags &&& FLAG_START_OF_FRAME ≠ 0 ↔
      j = 0) ∧
    ((frameHeader seq0 frameNo size nfrags keyframe j).flags &&& FLAG_END_OF_FRAME ≠ 0 ↔
      j = nfrags - 1) := by
  have hpay : min 1200 (size - 1200 * j) % 65536 = min 1200 (size - 1200 * j) :=
    Nat.mod_eq_of_lt (by omega)
  refine ⟨rfl, Nat.mod_eq_of_lt (by omega), Nat.mod_eq_of_lt (by omega), ?_, ?_, ?_, ?_, ?_⟩
  · show 0 < min 1200 (size - 1200 * j) % 65536
    rw [hpay]
    omega
  · show min 1200 (size - 1200 * j) % 65536 ≤ 1200
    rw [hpay]
    omega
  · exact (flags_bits keyframe (j = 0) (j = nfrags - 1)).1
  · exact (flags_bits keyframe (j = 0) (j = nfrags - 1)).2.1
  · exact (flags_bits keyframe (j = 0) (j = nfrags - 1)).2.2

/-- **C1.** For every `send_frame` call with a non-empty payload, a
destination set, and a fragment count that fits 16 bits, the datagrams are
emitted with fragment indices `0, 1, ...` in strictly increasing order;
start-of-frame is set exactly on index 0, end-of-frame exactly on the last
index, all datagrams carry the same frame number and a fragment count of
`ceil(size/1200)`, payloads are 1..1200 bytes, and the keyframe bit is set
on every fragment iff the frame is a keyframe. -/
theorem C1_send_frame_fragment_invariants (s : VideoSenderState)
    (size frameNo : Nat) (keyframe : Bool) (hcs : s.client_set = true)
    (hpos : 0 < size) (hfit : (size + 1199) / 1200 ≤ 65535) :
    FragInvariants s size frameNo keyframe := by
  obtain ⟨hres, hpk⟩ := send_frame_packets s size frameNo keyframe hcs hfit
  refine ⟨hres, ?_, ?_⟩
  · rw [hpk, frameHeaders, List.map_map]
    have hid : ∀ j ∈ List.range ((size + 1199) / 1200),
        ((fun p => p.fragment_idx) ∘
          frameHeader s.sequence frameNo size ((size + 1199) / 1200) keyframe) j = j := by
      intro j hj
      rw [List.mem_range] at hj
      show j % 65536 = j
      exact Nat.mod_eq_of_lt (by omega)
    rw [List.map_congr_left hid]
    simp
  · intro p hp
    rw [hpk, frameHeaders, List.mem_map] at hp
    obtain ⟨j, hj, rfl⟩ := hp
    rw [List.mem_range] at hj
    obtain ⟨h1, h2, h3, h4, h5, h6, h7, h8⟩ :=
      frameHeader_props s.sequence frameNo size ((size + 1199) / 1200) keyframe j hj
        hfit rfl
    rw [h2]
    exact ⟨h1, h3, h4, h5, h6, h7, h8⟩

theorem C1_send_frame_fragment_invariants_witness :
    sampleSender.client_set = true ∧ 0 < 2500 ∧ (2500 + 1199) / 1200 ≤ 65535 ∧
    FragInvariants sampleSender 2500 7 true :=
  ⟨rfl, by norm_num, by norm_num,
    C1_send_frame_fragment_invariants sampleSender 2500 7 true rfl (by norm_num)
      (by norm_num)⟩

/-- **C9.** A frame needing more than 65535 fragments is rejected: the call
returns `false`, emits no datagram, and leaves the whole sender state (the
sequence counter and the bytes/packets counters included) unchanged. -/
theorem C9_send_frame_rejects_oversized (s : VideoSenderState)
    (size frameNo : Nat) (keyframe : Bool) (hcs : s.client_set = true)
    (hbig : (size + 1199) / 1200 > 65535) :
    send_frame s size frameNo keyframe = (false, s, []) := by
  have hn : size + 1200 - 1 = size + 1199 := by omega
  unfold send_frame
  rw [hcs]
  rw [if_neg (show ¬ (true = false) by simp)]
  simp only [MAX_PAYLOAD_SIZE]
  rw [hn]
  rw [if_pos (show (size + 1199) / 1200 > 65535 from hbig)]

theorem C9_send_frame_rejects_oversized_witness :
    sampleSender.client_set = true ∧ (78643200 + 1199) / 1200 > 65535 ∧
    send_frame sampleSender 78643200 3 true = (false, sampleSender, []) :=
  ⟨rfl, by norm_num,
    C9_send_frame_rejects_oversized sampleSender 78643200 3 true rfl (by norm_num)⟩

/-- **C10.** An empty payload with a destination set yields a fragment
count of 0, emits nothing, changes no counter, and still returns `true`. -/
theorem C10_send_frame_empty_payload (s : VideoSenderState) (frameNo : Nat)
    (keyframe : Bool) (hcs : s.client_set = true) :
    (0 + MAX_PAYLOAD_SIZE - 1) / MAX_PAYLOAD_SIZE = 0 ∧
    send_frame s 0 frameNo keyframe = (true, s, []) := by
  refine ⟨by simp [MAX_PAYLOAD_SIZE], ?_⟩
  unfold send_frame
  rw [hcs]
  rw [if_neg (show ¬ (true = false) by simp)]
  simp only [MAX_PAYLOAD_SIZE]
  rw [if_neg (show ¬ (0 + 1200 - 1) / 1200 > 65535 by norm_num)]
  rw [sendFrameLoop_stop 0 ((0 + 1200 - 1) / 1200) frameNo keyframe
    (pacingSelect s 0 keyframe).1 (pacingSelect s 0 keyframe).2.1
    (pacingSelect s 0 keyframe).2.2 0 0 0 s (by norm_num)]

theorem C10_send_frame_empty_payload_witness :
    sampleSender.client_set = true ∧
    ((0 + MAX_PAYLOAD_SIZE - 1) / MAX_PAYLOAD_SIZE = 0 ∧
      send_frame sampleSender 0 5 false = (true, sampleSender, [])) :=
  ⟨rfl, C10_send_frame_empty_payload sampleSender 5 false rfl⟩

lemma send_frame_trace_of_sel (s : VideoSenderState) (size frameNo : Nat)
    (kf : Bool) (hcs : s.client_set = true)
    (hfit : (size + 1199) / 1200 ≤ 65535) :
    (send_frame s size frameNo kf).2.2 =
      (if (pacingSelect s size kf).1 = true then
        burstTrace (pacingSelect s size kf).2.1 (pacingSelect s size kf).2.2
          (frameHeaders s.sequence frameNo size ((size + 1199) / 1200) kf)
          (pacingSelect s size kf).2.1
      else
        (frameHeaders s.sequence frameNo size ((size + 1199) / 1200) kf).map
          SendEvent.packet) := by
  have hn : size + 1200 - 1 = size + 1199 := by omega
  unfold send_frame
  rw [hcs]
  rw [if_neg (show ¬ (true = false) by simp)]
  simp only [MAX_PAYLOAD_SIZE]
  rw [hn]
  rw [if_neg (show ¬ (size + 1199) / 1200 > 65535 by omega)]
  by_cases hsel : (pacingSelect s size kf).1 = true
  · rw [hsel, if_pos rfl]
    rw [sendFrameLoop_trace_paced size ((size + 1199) / 1200) frameNo kf
      (pacingSelect s size kf).2.1 (pacingSelect s size kf).2.2
      (by omega) ((size + 1199) / 1200) s.sequence 0 0 0 s (by omega) (by omega)
      (by omega)]
    rw [frameHeaders, List.range_eq_range', Nat.sub_zero]
  · rw [Bool.not_eq_true] at hsel
    rw [hsel, if_neg (by simp)]
    rw [sendFrameLoop_trace_unpaced size ((size + 1199) / 1200) frameNo kf
      (pacingSelect s size kf).2.1 (pacingSelect s size kf).2.2
      (by omega) ((size + 1199) / 1200) s.sequence 0 0 0 s (by omega) (by omega)
      (by omega)]
    rw [frameHeaders, List.range_eq_range']

lemma set_client_keyframe (s : VideoSenderState) (o1 o2 o3 : Nat) :
    set_client s o1 o2 o3 PacingMode.KEYFRAME =
      { s with
        client_set := true
        pacing_mode := PacingMode.KEYFRAME
        pacing_threshold := 0
        packets_per_burst := 8
        burst_delay_us := 100 } := rfl

/-- **C4 (amended).** Under Keyframe-only pacing, non-keyframes are never
paced; keyframes over 100 KB use the size-adaptive tiers 6/150 µs,
4/200 µs and 2/300 µs of the claim, and no sleep follows the final burst —
but keyframes of at most 100 KB are still paced, with the mode's default
burst of 8 packets and 100 µs delay, not sent without inter-burst delay. -/
theorem C4_keyframe_only_pacing (s0 : VideoSenderState)
    (o1 o2 o3 size frameNo : Nat) (kf : Bool)
    (hfit : (size + 1199) / 1200 ≤ 65535) :
    KeyframePacingTiers s0 o1 o2 o3 size frameNo kf := by
  rw [KeyframePacingTiers, set_client_keyframe]
  have hcs : ({ s0 with
      client_set := true
      pacing_mode := PacingMode.KEYFRAME
      pacing_threshold := 0
      packets_per_burst := 8
      burst_delay_us := 100 } : VideoSenderState).client_set = true := rfl
  refine ⟨?_, ?_, ?_, ?_, ?_⟩
  · intro hkf
    subst hkf
    rw [send_frame_trace_of_sel _ _ _ _ hcs hfit]
    rw [show pacingSelect { s0 with
        client_set := true
        pacing_mode := PacingMode.KEYFRAME
        pacing_threshold := 0
        packets_per_burst := 8
        burst_delay_us := 100 } size false = (false, 8, 100) from by
      simp [pacingSelect]]
    simp
  · intro hkf hsz
    subst hkf
    rw [send_frame_trace_of_sel _ _ _ _ hcs hfit]
    rw [show pacingSelect { s0 with
        client_set := true
        pacing_mode := PacingMode.KEYFRAME
        pacing_threshold := 0
        packets_per_burst := 8
        burst_delay_us := 100 } size true = (true, 8, 100) from by
      simp only [pacingSelect, reduceIte]
      rw [if_neg (show ¬ (True ∧ size > 100000) from fun h => absurd h.2 (by omega))]]
    simp
  · intro hkf h1 h2
    subst hkf
    rw [send_frame_trace_of_sel _ _ _ _ hcs hfit]
    rw [show pacingSelect { s0 with
        client_set := true
        pacing_mode := PacingMode.KEYFRAME
        pacing_threshold := 0
        packets_per_burst := 8
        burst_delay_us := 100 } size true = (true, 6, 150) from by
      simp only [pacingSelect, reduceIte]
      rw [if_pos (show True ∧ size > 100000 from ⟨trivial, by omega⟩),
        if_neg (show ¬ size > 500000 by omega),
        if_neg (show ¬ size > 300000 by omega)]]
    simp
  · intro hkf h1 h2
    subst hkf
    rw [send_frame_trace_of_sel _ _ _ _ hcs hfit]
    rw [show pacingSelect { s0 with
        client_set := true
        pacing_mode := PacingMode.KEYFRAME
        pacing_threshold := 0
        packets_per_burst := 8
        burst_delay_us := 100 } size true = (true, 4, 200) from by
      simp only [pacingSelect, reduceIte]
      rw [if_pos (show True ∧ size > 100000 from ⟨trivial, by omega⟩),
        if_neg (show ¬ size > 500000 by omega),
        if_pos (show size > 300000 by omega)]]
    simp
  · intro hkf h1
    subst hkf
    rw [send_frame_trace_of_sel _ _ _ _ hcs hfit]
    rw [show pacingSelect { s0 with
        client_set := true
        pacing_mode := PacingMode.KEYFRAME
        pacing_threshold := 0
        packets_per_burst := 8
        burst_delay_us := 100 } size true = (true, 2, 300) from by
      simp only [pacingSelect, reduceIte]
      rw [if_pos (show True ∧ size > 100000 from ⟨trivial, by omega⟩),
        if_pos (show size > 500000 by omega)]]
    simp

theorem C4_keyframe_only_pacing_witness :
    (2500 + 1199) / 1200 ≤ 65535 ∧
    KeyframePacingTiers sampleSender 192 168 1 2500 7 true :=
  ⟨by norm_num, C4_keyframe_only_pacing sampleSender 192 168 1 2500 7 true
    (by norm_num)⟩

/-- **C4, counterexample to the claim as stated.**  A 12000-byte keyframe
(10 fragments, well under 100 KB) sent under Keyframe-only pacing does
contain an inter-burst sleep (100 µs after the 8-packet burst), although the
claim says frames of at most 100 KB insert no inter-burst delay at all. -/
theorem C4_small_keyframe_is_paced :
    (12000 : Nat) ≤ 100000 ∧
    SendEvent.sleep 100 ∈
      (send_frame (set_client sampleSender 192 168 1 PacingMode.KEYFRAME)
        12000 0 true).2.2 := by
  refine ⟨by norm_num, ?_⟩
  rw [send_frame_trace_of_sel _ _ _ _ rfl (by norm_num)]
  decide

lemma lo_byte (x : Nat) : x &&& 255 = x % 256 :=
  Nat.and_pow_two_sub_one_eq_mod x 8

lemma hi_byte (x : Nat) (hx : x < 65536) : (x >>> 8) &&& 255 = x / 256 := by
  rw [lo_byte, Nat.shiftRight_eq_div_pow]
  omega

lemma send_config_full_spec (w h vp ip ap asr ach afm codec : Nat)
    (hw : w < 65536) (hh : h < 65536) (hvp : vp < 65536) (hip : ip < 65536)
    (hap : ap < 65536) (hasr : asr < 65536) (hach : ach < 256)
    (hafm : afm < 256) (hcodec : codec < 256) :
    send_config_full_payload w h vp ip ap asr ach afm codec =
      specConfigResponse w h vp ip ap asr ach afm codec := by
  unfold send_config_full_payload specConfigResponse
  rw [hi_byte w hw, lo_byte w, hi_byte h hh, lo_byte h, hi_byte vp hvp,
    lo_byte vp, hi_byte ip hip, lo_byte ip, hi_byte ap hap, lo_byte ap,
    hi_byte asr hasr, lo_byte asr, Nat.mod_eq_of_lt hach,
    Nat.mod_eq_of_lt hafm, Nat.mod_eq_of_lt hcodec]

/-- **C2.** The ConfigResponse sent during the control handshake is the
15-byte form `[screen_w(2) | screen_h(2) | video port(2) | input port(2) |
audio port(2, 0 if audio disabled) | sample rate(2) | channels(1) |
frame ms(1) | codec id(1)]` with multi-byte fields big-endian, framed as a
control message of type 0x04 with big-endian length 16. -/
theorem C2_config_response_is_15_byte_form (w h vp ip ap asr ach afm codec : Nat)
    (audioInit : Bool) (hw : w < 65536) (hh : h < 65536) (hvp : vp < 65536)
    (hip : ip < 65536) (hap : ap < 65536) (hasr : asr < 65536)
    (hach : ach < 256) (hafm : afm < 256) (hcodec : codec < 256) :
    (server_config_response w h vp ip ap asr ach afm codec audioInit).length = 15 ∧
    server_config_response w h vp ip ap asr ach afm codec audioInit =
      specConfigResponse w h vp ip (if audioInit then ap else 0) asr ach afm
        codec ∧
    send_message MSG_CONFIG_RESPONSE
        (server_config_response w h vp ip ap asr ach afm codec audioInit) =
      0 :: 16 :: MSG_CONFIG_RESPONSE ::
        server_config_response w h vp ip ap asr ach afm codec audioInit := by
  have hap2 : (if audioInit then ap else 0) < 65536 := by
    cases audioInit
    · simp
    · simpa using hap
  have hlen : (server_config_response w h vp ip ap asr ach afm codec
      audioInit).length = 15 := rfl
  refine ⟨hlen, ?_, ?_⟩
  · exact send_config_full_spec w h vp ip (if audioInit then ap else 0) asr ach
      afm codec hw hh hvp hip hap2 hasr hach hafm hcodec
  · unfold send_message
    rw [hlen, lo_byte, lo_byte, Nat.shiftRight_eq_div_pow]
    norm_num [MSG_CONFIG_RESPONSE]

theorem C2_config_response_is_15_byte_form_witness :
    (1920 : Nat) < 65536 ∧ (1080 : Nat) < 65536 ∧ (9501 : Nat) < 65536 ∧
    (9502 : Nat) < 65536 ∧ (9503 : Nat) < 65536 ∧ (48000 : Nat) < 65536 ∧
    (2 : Nat) < 256 ∧ (10 : Nat) < 256 ∧ (0 : Nat) < 256 ∧
    ((server_config_response 1920 1080 9501 9502 9503 48000 2 10 0 true).length
        = 15 ∧
      server_config_response 1920 1080 9501 9502 9503 48000 2 10 0 true =
        specConfigResponse 1920 1080 9501 9502 (if true then 9503 else 0) 48000
          2 10 0 ∧
      send_message MSG_CONFIG_RESPONSE
          (server_config_response 1920 1080 9501 9502 9503 48000 2 10 0 true) =
        0 :: 16 :: MSG_CONFIG_RESPONSE ::
          server_config_response 1920 1080 9501 9502 9503 48000 2 10 0 true) :=
  ⟨by norm_num, by norm_num, by norm_num, by norm_num, by norm_num, by norm_num,
    by norm_num, by norm_num, by norm_num,
    C2_config_response_is_15_byte_form 1920 1080 9501 9502 9503 48000 2 10 0
      true (by norm_num) (by norm_num) (by norm_num) (by norm_num) (by norm_num)
      (by norm_num) (by norm_num) (by norm_num) (by norm_num)⟩

lemma takeWhile_not_append_of_mem (q r : List Bool) (hq : true ∈ q) :
    (q ++ r).takeWhile (fun b => !b) = q.takeWhile (fun b => !b) := by
  induction q with
  | nil => cases hq
  | cons a t ih =>
    cases a
    · have ht : true ∈ t := by simpa using hq
      simp only [List.cons_append, List.takeWhile_cons]
      simp [ih ht]
    · simp [List.takeWhile_cons]

lemma takeWhile_not_append_true_le (l : List Bool) :
    ((l ++ [true]).takeWhile (fun b => !b)).length ≤ l.length := by
  induction l with
  | nil => simp [List.takeWhile_cons]
  | cons a t ih =>
    cases a
    · simp only [List.cons_append, List.takeWhile_cons]
      simp only [Bool.not_false, if_true]
      simp only [List.length_cons]
      omega
    · simp [List.takeWhile_cons]

lemma encodeRun_bound (calls : List (Bool × Bool)) :
    ∀ (s : EncoderState) (n : Nat),
      ((true ∈ s.queue ∧ (s.queue.takeWhile (fun b => !b)).length ≤ n) ∨
        (s.force_keyframe = true ∧ s.queue.length ≤ n)) →
      ((encodeRun s calls).takeWhile (fun b => !b)).length ≤ n := by
  induction calls with
  | nil =>
    intro s n _
    simp [encodeRun]
  | cons c rest ih =>
    intro s n hinv
    obtain ⟨ready, gop⟩ := c
    have hqmem : true ∈ s.queue ++ [s.force_keyframe] := by
      rcases hinv with ⟨hm, _⟩ | ⟨hf, _⟩
      · exact List.mem_append_left _ hm
      · rw [hf]
        exact List.mem_append_right _ (by simp)
    have hqtw : ((s.queue ++ [s.force_keyframe]).takeWhile
        (fun b => !b)).length ≤ n := by
      rcases hinv with ⟨hm, hb⟩ | ⟨hf, hb⟩
      · rw [takeWhile_not_append_of_mem _ _ hm]
        exact hb
      · rw [hf]
        exact le_trans (takeWhile_not_append_true_le s.queue) hb
    cases ready
    · rw [encodeRun]
      simp only [encode, Bool.false_eq_true, if_false]
      exact ih _ n (Or.inl ⟨hqmem, hqtw⟩)
    · rcases hsq : s.queue with _ | ⟨a, t⟩
      · rw [hsq] at hqmem
        have hforce : s.force_keyframe = true := by simpa using hqmem
        rw [encodeRun]
        simp [encode, hsq, hforce]
      · cases a
        · by_cases hgop : gop = true
          · rw [encodeRun]
            simp [encode, hsq, hgop]
          · rw [Bool.not_eq_true] at hgop
            rw [hsq] at hqmem hqtw
            have hmem_t : true ∈ t ++ [s.force_keyframe] := by
              simpa using hqmem
            have htw_t : ((t ++ [s.force_keyframe]).takeWhile
                (fun b => !b)).length ≤ n - 1 := by
              rw [List.cons_append, List.takeWhile_cons] at hqtw
              simp at hqtw
              omega
            have hn1 : 1 ≤ n := by
              rw [List.cons_append, List.takeWhile_cons] at hqtw
              simp at hqtw
              omega
            rw [encodeRun]
            simp only [encode, hsq, hgop]
            simp only [List.cons_append, reduceIte]
            have hrec := ih (⟨false, t ++ [s.force_keyframe]⟩ : EncoderState)
              (n - 1) (Or.inl ⟨hmem_t, htw_t⟩)
            simp [List.takeWhile_cons]
            omega
        · rw [encodeRun]
          simp [encode, hsq]

/-- **C3 (amended).** After `request_keyframe()`, the very next `encode()`
call marks its submitted frame as a keyframe and clears the one-shot flag at
that moment (even when that call returns NotReady); provided at most one
earlier frame is buffered inside the codec (the configuration uses
`async_depth = 1`), at most one non-keyframe is returned by `encode()`
before a keyframe is returned. -/
theorem C3_keyframe_liveness (s : EncoderState) (calls : List (Bool × Bool))
    (hdepth : s.queue.length ≤ 1) :
    (∀ (e : EncoderState) (ready gop : Bool),
      (encode e ready gop).1.force_keyframe = false) ∧
    nonKeyframesBeforeKeyframe (encodeRun (request_keyframe s) calls) ≤ 1 := by
  constructor
  · intro e ready gop
    rcases e with ⟨f, q⟩
    cases ready <;> cases q <;> simp [encode]
  · exact encodeRun_bound calls (request_keyframe s) 1 (Or.inr ⟨rfl, hdepth⟩)

theorem C3_keyframe_liveness_witness :
    (⟨false, [false]⟩ : EncoderState).queue.length ≤ 1 ∧
    ((∀ (e : EncoderState) (ready gop : Bool),
        (encode e ready gop).1.force_keyframe = false) ∧
      nonKeyframesBeforeKeyframe
        (encodeRun (request_keyframe ⟨false, [false]⟩)
          [(false, false), (true, false), (true, false), (true, false)]) ≤ 1) :=
  ⟨by decide,
    C3_keyframe_liveness ⟨false, [false]⟩
      [(false, false), (true, false), (true, false), (true, false)]
      (by decide)⟩

/-- **C3, counterexample to the claim as stated.** With the one-shot flag
set and the codec still empty, an `encode()` call in which
`avcodec_receive_packet` yields EAGAIN returns NotReady — no keyframe is
produced — yet the flag is already cleared, while the marked frame is still
inside the codec; the claim says the flag is cleared only at the moment a
keyframe is actually produced. -/
theorem C3_flag_cleared_on_notready :
    (encode ⟨true, []⟩ false false).2 = none ∧
    (encode ⟨true, []⟩ false false).1.force_keyframe = false ∧
    (encode ⟨true, []⟩ false false).1.queue = [true] := by
  decide

lemma yByte_spec (r g b : Nat) (hr : r ≤ 255) (hg : g ≤ 255) (hb : b ≤ 255) :
    yByte r g b = ((66 * r + 129 * g + 25 * b + 128) >>> 8) + 16 ∧
    yByte r g b ≤ 255 := by
  have hshift : (66 * r + 129 * g + 25 * b + 128) >>> 8 =
      (66 * r + 129 * g + 25 * b + 128) / 256 := by
    rw [Nat.shiftRight_eq_div_pow]
  unfold yByte
  rw [hshift]
  constructor
  · exact Nat.mod_eq_of_lt (by omega)
  · omega

lemma uValue_spec (r g b : Nat) (hr : r ≤ 255) (hg : g ≤ 255) (hb : b ≤ 255) :
    clampByte (uValue r g b) = uValue r g b ∧ 0 ≤ uValue r g b ∧
    uValue r g b ≤ 255 := by
  have he : uValue r g b =
      (-38 * (r : Int) - 74 * (g : Int) + 112 * (b : Int) + 128) / 256 + 128 := by
    unfold uValue sar8
    rw [Int.fdiv_eq_ediv _ (by norm_num)]
  have hb1 : 0 ≤ uValue r g b := by
    rw [he]
    omega
  have hb2 : uValue r g b ≤ 255 := by
    rw [he]
    omega
  refine ⟨?_, hb1, hb2⟩
  unfold clampByte
  rw [if_neg (by omega), if_neg (by omega)]

lemma vValue_spec (r g b : Nat) (hr : r ≤ 255) (hg : g ≤ 255) (hb : b ≤ 255) :
    clampByte (vValue r g b) = vValue r g b ∧ 0 ≤ vValue r g b ∧
    vValue r g b ≤ 255 := by
  have he : vValue r g b =
      (112 * (r : Int) - 94 * (g : Int) - 18 * (b : Int) + 128) / 256 + 128 := by
    unfold vValue sar8
    rw [Int.fdiv_eq_ediv _ (by norm_num)]
  have hb1 : 0 ≤ vValue r g b := by
    rw [he]
    omega
  have hb2 : vValue r g b ≤ 255 := by
    rw [he]
    omega
  refine ⟨?_, hb1, hb2⟩
  unfold clampByte
  rw [if_neg (by omega), if_neg (by omega)]

lemma avg4_le (a b c d : Nat) (ha : a ≤ 255) (hbb : b ≤ 255) (hc : c ≤ 255)
    (hd : d ≤ 255) : avg4 a b c d ≤ 255 := by
  have h : avg4 a b c d = (a + b + c + d) / 4 := by
    unfold avg4
    rw [Nat.shiftRight_eq_div_pow]
  omega

/-- **C5.** For every pixel, the conversion writes
`Y = ((66R + 129G + 25B + 128) >> 8) + 16`, and for every 2×2 block it
writes the U and V obtained by applying the BT.601 formulas to the
componentwise average (sum of the four source pixels shifted right by 2);
every produced Y, U and V byte lies in [0, 255]. -/
theorem C5_bgra_to_nv12_conversion (pix : Nat → Nat → Pixel)
    (hpix : ∀ x y, (pix x y).r ≤ 255 ∧ (pix x y).g ≤ 255 ∧ (pix x y).b ≤ 255)
    (x y : Nat) : NV12PixelSpec pix x y := by
  obtain ⟨hyr, hyg, hyb⟩ := hpix x y
  obtain ⟨h00r, h00g, h00b⟩ := hpix (2 * x) (2 * y)
  obtain ⟨h10r, h10g, h10b⟩ := hpix (2 * x + 1) (2 * y)
  obtain ⟨h01r, h01g, h01b⟩ := hpix (2 * x) (2 * y + 1)
  obtain ⟨h11r, h11g, h11b⟩ := hpix (2 * x + 1) (2 * y + 1)
  have hra := avg4_le _ _ _ _ h00r h10r h01r h11r
  have hga := avg4_le _ _ _ _ h00g h10g h01g h11g
  have hba := avg4_le _ _ _ _ h00b h10b h01b h11b
  obtain ⟨hy1, hy2⟩ := yByte_spec _ _ _ hyr hyg hyb
  obtain ⟨hu1, hu2, hu3⟩ := uValue_spec _ _ _ hra hga hba
  obtain ⟨hv1, hv2, hv3⟩ := vValue_spec _ _ _ hra hga hba
  exact ⟨hy1, hy2, hu1, hv1, by rw [uvPlane, uvBytes, hu1] at *; exact hu2,
    by rw [uvPlane, uvBytes, hu1] at *; exact hu3,
    by rw [uvPlane, uvBytes, hv1] at *; exact hv2,
    by rw [uvPlane, uvBytes, hv1] at *; exact hv3⟩

theorem C5_bgra_to_nv12_conversion_witness :
    (∀ x y, (constPix x y).r ≤ 255 ∧ (constPix x y).g ≤ 255 ∧
      (constPix x y).b ≤ 255) ∧
    NV12PixelSpec constPix 0 0 :=
  ⟨fun _ _ => ⟨by norm_num [constPix], by norm_num [constPix],
      by norm_num [constPix]⟩,
    C5_bgra_to_nv12_conversion constPix
      (fun _ _ => ⟨by norm_num [constPix], by norm_num [constPix],
        by norm_num [constPix]⟩) 0 0⟩

lemma send_touch_up_eq (slots : TouchSlots) (x y p : Int) (si : Fin 5) :
    send_touch slots x y p si.val false =
      (Function.update slots si ⟨false, -1⟩,
        ⟨EV_ABS, ABS_MT_SLOT, (si.val : Int)⟩ ::
          ⟨EV_ABS, ABS_MT_TRACKING_ID, -1⟩ :: ⟨EV_KEY, BTN_TOUCH, 0⟩ ::
          ⟨EV_KEY, BTN_TOOL_FINGER, 0⟩ ::
          (upToolClear (activeCount slots) ++ [⟨EV_SYN, SYN_REPORT, 0⟩])) := by
  unfold send_touch
  rw [dif_pos si.isLt]
  simp [Fin.eta]

/-- **C6 (amended).** A TouchUp on an active slot selects that slot and
writes tracking id −1; it clears `BTN_TOUCH` and `BTN_TOOL_FINGER`
unconditionally — even when other slots remain active — it additionally
clears the TOOL_* key corresponding to the count of active slots
immediately before the release (counts 2..5), and it deactivates the
slot. -/
theorem C6_touch_up_behaviour (slots : TouchSlots) (x y : Int) (si : Fin 5)
    (_hactive : (slots si).active = true) : TouchUpBehaviour slots x y si := by
  unfold TouchUpBehaviour
  rw [send_touch_up_eq]
  refine ⟨rfl, ?_, ?_, ?_, ?_, rfl⟩
  · simp
  · simp
  · simp
  · intro a ha
    exact List.mem_cons_of_mem _ (List.mem_cons_of_mem _ (List.mem_cons_of_mem _
      (List.mem_cons_of_mem _ (List.mem_append_left _ ha))))

theorem C6_touch_up_behaviour_witness :
    (twoActiveSlots 0).active = true ∧ TouchUpBehaviour twoActiveSlots 5 6 0 :=
  ⟨by decide, C6_touch_up_behaviour twoActiveSlots 5 6 0 (by decide)⟩

/-- **C6, counterexample to the claim as stated.** Releasing slot 0 while
slot 1 is still active emits `BTN_TOUCH = 0` even though one slot remains
active after the release; the claim says `BTN_TOUCH` is cleared only when
no slots remain active. -/
theorem C6_btn_touch_cleared_with_slot_remaining :
    (⟨EV_KEY, BTN_TOUCH, 0⟩ : UEvent) ∈
      (send_touch twoActiveSlots 0 0 0 0 false).2 ∧
    activeCount (send_touch twoActiveSlots 0 0 0 0 false).1 = 1 := by
  decide

lemma send_stylus_preserves (s : StylusState) (x y p tx ty : Int)
    (tip inr : Bool) (_hs : s.touching = true → s.tool_active = true) :
    (send_stylus s x y p tx ty tip false inr).1.touching = true →
    (send_stylus s x y p tx ty tip false inr).1.tool_active = true := by
  cases inr
  · simp [send_stylus]
  · cases hsa : s.tool_active <;> cases tip <;> cases hst : s.touching <;>
      simp [send_stylus, hsa, hst]

lemma handleRun_stylus_inv (evs : List ModelInputEvent) :
    ∀ s : InputState, (∀ e ∈ evs, e.buttons &&& 0x20 = 0) →
      (s.stylus.touching = true → s.stylus.tool_active = true) →
      ((handleRun s evs).stylus.touching = true →
        (handleRun s evs).stylus.tool_active = true) := by
  induction evs with
  | nil =>
    intro s _ hs
    exact hs
  | cons e es ih =>
    intro s he hs
    rw [handleRun]
    refine ih _ (fun e' he' => he e' (List.mem_cons_of_mem _ he')) ?_
    have hbtn : e.buttons &&& 0x20 = 0 := he e (List.mem_cons_self _ _)
    rcases e with ⟨ty, pid, ax, ay, ap2, tx, ty2, btns⟩
    cases ty
    case TOUCH_DOWN => exact hs
    case TOUCH_MOVE => exact hs
    case TOUCH_UP => exact hs
    case KEY_DOWN => exact hs
    case KEY_UP => exact hs
    case STYLUS_DOWN =>
      show (send_stylus s.stylus ax ay ap2 tx ty2 true
          (btns &&& 0x20 != 0) true).1.touching = true →
        (send_stylus s.stylus ax ay ap2 tx ty2 true
          (btns &&& 0x20 != 0) true).1.tool_active = true
      rw [show (btns &&& 0x20 != 0) = false by simp [hbtn]]
      exact send_stylus_preserves _ _ _ _ _ _ _ _ hs
    case STYLUS_MOVE =>
      show (send_stylus s.stylus ax ay ap2 tx ty2 true
          (btns &&& 0x20 != 0) true).1.touching = true →
        (send_stylus s.stylus ax ay ap2 tx ty2 true
          (btns &&& 0x20 != 0) true).1.tool_active = true
      rw [show (btns &&& 0x20 != 0) = false by simp [hbtn]]
      exact send_stylus_preserves _ _ _ _ _ _ _ _ hs
    case STYLUS_HOVER =>
      show (send_stylus s.stylus ax ay ap2 tx ty2 false
          (btns &&& 0x20 != 0) true).1.touching = true →
        (send_stylus s.stylus ax ay ap2 tx ty2 false
          (btns &&& 0x20 != 0) true).1.tool_active = true
      rw [show (btns &&& 0x20 != 0) = false by simp [hbtn]]
      exact send_stylus_preserves _ _ _ _ _ _ _ _ hs
    case STYLUS_UP =>
      exact send_stylus_preserves _ _ _ _ _ _ _ _ hs

/-- **C7 (amended).** Over any sequence of received input events in which
the eraser bit (buttons & 0x20) is never set, every reachable stylus state
satisfies: tip contact implies the tool is active; and processing a
StylusUp always leaves both stylus flags off and emits pressure 0.  (With
the eraser bit the invariant fails; see the counterexample.) -/
theorem C7_stylus_state_safety (evs : List ModelInputEvent)
    (he : ∀ e ∈ evs, e.buttons &&& 0x20 = 0) : StylusSafety evs := by
  constructor
  · exact handleRun_stylus_inv evs inputInit he
      (fun h => by simp [inputInit] at h)
  · intro s e hty
    rcases e with ⟨ty, pid, ax, ay, ap2, tx, ty2, btns⟩
    simp only at hty
    subst hty
    constructor
    · show (send_stylus s.stylus ax ay 0 tx ty2 false false false).1 =
        (⟨false, false⟩ : StylusState)
      simp [send_stylus]
    · show (⟨EV_ABS, ABS_PRESSURE, 0⟩ : UEvent) ∈
        (send_stylus s.stylus ax ay 0 tx ty2 false false false).2
      rcases s with ⟨⟨ta, tc⟩, tslots⟩
      cases ta <;> cases tc <;> simp [send_stylus]

theorem C7_stylus_state_safety_witness :
    (∀ e ∈ ([⟨InputEventType.STYLUS_HOVER, 0, 1, 1, 0, 0, 0, 0⟩,
        ⟨InputEventType.STYLUS_DOWN, 0, 1, 1, 50, 0, 0, 0⟩,
        ⟨InputEventType.STYLUS_UP, 0, 1, 1, 0, 0, 0, 0⟩] :
          List ModelInputEvent), e.buttons &&& 0x20 = 0) ∧
    StylusSafety [⟨InputEventType.STYLUS_HOVER, 0, 1, 1, 0, 0, 0, 0⟩,
      ⟨InputEventType.STYLUS_DOWN, 0, 1, 1, 50, 0, 0, 0⟩,
      ⟨InputEventType.STYLUS_UP, 0, 1, 1, 0, 0, 0, 0⟩] :=
  ⟨by decide, C7_stylus_state_safety _ (by decide)⟩

/-- **C7, counterexample to the claim as stated.** A first stylus contact
with the eraser bit set (buttons = 0x20) activates neither BTN_TOOL_PEN nor
BTN_TOOL_RUBBER, yet records tip contact: the touching flag holds while no
tool is active. -/
theorem C7_eraser_contact_violates_invariant :
    (handle_input inputInit
      ⟨InputEventType.STYLUS_DOWN, 0, 0, 0, 100, 0, 0, 0x20⟩).1.stylus.touching
        = true ∧
    (handle_input inputInit
      ⟨InputEventType.STYLUS_DOWN, 0, 0, 0, 100, 0, 0, 0x20⟩).1.stylus.tool_active
        = false := by
  decide

/-- **C8 (amended).** `KEY_DOWN` and `KEY_UP` events reach the
`default: break;` of `Server::handle_input`: they are accepted and silently
discarded — no key press or release is emitted on any synthetic device and
the state is unchanged. -/
theorem C8_key_events_discarded (s : InputState) (e : ModelInputEvent)
    (hk : e.etype = InputEventType.KEY_DOWN ∨
      e.etype = InputEventType.KEY_UP) :
    handle_input s e = (s, []) := by
  rcases e with ⟨ty, pid, ax, ay, ap2, tx, ty2, btns⟩
  simp only at hk
  rcases hk with h | h <;> subst h <;> rfl

theorem C8_key_events_discarded_witness :
    ((⟨InputEventType.KEY_UP, 0, 0, 0, 0, 0, 0, 30⟩ :
        ModelInputEvent).etype = InputEventType.KEY_DOWN ∨
      (⟨InputEventType.KEY_UP, 0, 0, 0, 0, 0, 0, 30⟩ :
        ModelInputEvent).etype = InputEventType.KEY_UP) ∧
    handle_input inputInit ⟨InputEventType.KEY_UP, 0, 0, 0, 0, 0, 0, 30⟩ =
      (inputInit, []) :=
  ⟨Or.inr rfl,
    C8_key_events_discarded inputInit
      ⟨InputEventType.KEY_UP, 0, 0, 0, 0, 0, 0, 30⟩ (Or.inr rfl)⟩

/-- **C8, counterexample to the claim as stated.** A received KeyDown
carrying Linux key code 30 (KEY_A) in the buttons field produces no
synthetic input event at all — in particular no key press carrying that
code is emitted on the stylus or mouse device. -/
theorem C8_keydown_emits_nothing :
    (handle_input inputInit
      ⟨InputEventType.KEY_DOWN, 0, 0, 0, 0, 0, 0, 30⟩).2 = [] ∧
    (⟨EV_KEY, 30, 1⟩ : UEvent) ∉
      (handle_input inputInit
        ⟨InputEventType.KEY_DOWN, 0, 0, 0, 0, 0, 0, 30⟩).2 := by
  decide

end StreamTablet
